import Mathlib

/-
Verification of the silk daemon lease controller and veth manager contracts.

The lease controller is embedded shallowly from
src/daemon/lib/lease_controller.go.  The Go code talks to its
collaborators through interfaces (databaseHandler, cidrPool,
hardwareAddressGenerator); here those collaborators are fields of the
controller, each an explicit state-passing function.  Go functions that
return (value, error) pairs are modelled as returning the pair
(value, Option Err), never a sum type, because the Go code inspects the
two components independently (for example AcquireSubnetLease checks the
returned lease pointer, not the error).

Every collaborator call, sleep, and log statement performed by the
controller is recorded in an event trace, so that claims about which
collaborators are invoked, how many attempts are made, and whether the
loop sleeps, are statable as facts about the trace.
-/

/-- Go error values are modelled by their message strings. -/
abbrev Err := String

/-- controller.Lease: the durable (host, subnet, hardware address) tuple. -/
structure Lease where
  UnderlayIP : String
  OverlaySubnet : String
  OverlayHardwareAddr : String
deriving DecidableEq

/-- The log statements issued by lease_controller.go via its Logger. -/
inductive LogEntry where
  | migrationComplete (numApplied : Int)
  | leaseRenewed (lease : Option Lease)
  | leaseAcquired (lease : Option Lease)
  | subnetReleased (underlayIP : String)
deriving DecidableEq

/-- Observable events of a controller run: one event per collaborator
call, per sleep, and per log statement, in program order. -/
inductive Ev where
  | callMigrate
  | callAddEntry (lease : Lease)
  | callDeleteEntry (underlayIP : String)
  | callLeaseForUnderlayIP (underlayIP : String)
  | callAll
  | callGetAvailable (taken : List String)
  | callParseCIDR (subnet : String)
  | callGenerateForVTEP (vtepIP : String)
  | sleep (d : Nat)
  | logged (entry : LogEntry)
deriving DecidableEq

/-- The databaseHandler interface of lease_controller.go, as explicit
state-passing functions over an abstract store state σ.  Each method
returns its Go results paired with the successor state. -/
structure databaseHandler (σ : Type) where
  Migrate : σ → (Int × Option Err) × σ
  AddEntry : Lease → σ → Option Err × σ
  DeleteEntry : String → σ → Option Err × σ
  LeaseForUnderlayIP : String → σ → (Option Lease × Option Err) × σ
  All : σ → (List Lease × Option Err) × σ

/-- The LeaseController struct of lease_controller.go.  CIDRPool stands
for the one-method cidrPool interface (GetAvailable) and
HardwareAddressGenerator for the one-method hardwareAddressGenerator
interface (GenerateForVTEP).  ParseCIDR models the Go standard library
function net.ParseCIDR restricted to the IP component the code uses;
it is a field so that theorems quantify over its behaviour.
MaxMigrationAttempts and AcquireSubnetLeaseAttempts are Go ints, hence
Int.  Durations are opaque naturals. -/
structure LeaseController (σ : Type) where
  DatabaseHandler : databaseHandler σ
  HardwareAddressGenerator : String → String × Option Err
  MaxMigrationAttempts : Int
  MigrationAttemptSleepDuration : Nat
  AcquireSubnetLeaseAttempts : Int
  CIDRPool : List String → String × Option Err
  UnderlayIP : String
  ParseCIDR : String → String × Option Err

/-- How Go fmt renders the final error operand of TryMigrations when the
loop never ran: formatting a nil error with %s prints this marker. -/
def goErrString : Option Err → String
  | none => "%!s(<nil>)"
  | some e => e

/-- The loop body of LeaseController.TryMigrations
(lease_controller.go lines 69-85): while fewer than
MaxMigrationAttempts errors have occurred, call Migrate; on success log
the applied count and return nil; on failure count the error, sleep the
configured duration, and continue.  The fuel argument is the number of
remaining permitted errors, and lastErr carries the most recent Migrate
error for the exhaustion message. -/
def tryMigrationsLoop {σ : Type} (c : LeaseController σ) :
    σ → Option Err → Nat → Option Err × σ × List Ev
  | s, lastErr, 0 => (some ("creating table: " ++ goErrString lastErr), s, [])
  | s, _lastErr, n + 1 =>
    let r := c.DatabaseHandler.Migrate s
    match r.1.2 with
    | none =>
      (none, r.2, [Ev.callMigrate, Ev.logged (LogEntry.migrationComplete r.1.1)])
    | some e =>
      let rest := tryMigrationsLoop c r.2 (some e) n
      (rest.1, rest.2.1,
        Ev.callMigrate :: Ev.sleep c.MigrationAttemptSleepDuration :: rest.2.2)

/-- LeaseController.TryMigrations: run the migration retry loop from a
zero error count with no previous error. -/
def TryMigrations {σ : Type} (c : LeaseController σ) (s : σ) :
    Option Err × σ × List Ev :=
  tryMigrationsLoop c s none c.MaxMigrationAttempts.toNat

/-- LeaseController.ReleaseSubnetLease (lease_controller.go lines
87-96): delete the lease keyed by the controller UnderlayIP, wrapping a
failure; on success log the release. -/
def ReleaseSubnetLease {σ : Type} (c : LeaseController σ) (s : σ) :
    Option Err × σ × List Ev :=
  let r := c.DatabaseHandler.DeleteEntry c.UnderlayIP s
  match r.1 with
  | some e =>
    (some ("releasing lease: " ++ e), r.2, [Ev.callDeleteEntry c.UnderlayIP])
  | none =>
    (none, r.2,
      [Ev.callDeleteEntry c.UnderlayIP,
       Ev.logged (LogEntry.subnetReleased c.UnderlayIP)])

/-- LeaseController.RoutableLeases (lease_controller.go lines 119-126):
list every lease, wrapping a failure (the Go code then returns a nil
slice, modelled by the empty list). -/
def RoutableLeases {σ : Type} (c : LeaseController σ) (s : σ) :
    (List Lease × Option Err) × σ × List Ev :=
  let r := c.DatabaseHandler.All s
  match r.1.2 with
  | some e => (([], some ("getting all leases: " ++ e)), r.2, [Ev.callAll])
  | none => ((r.1.1, none), r.2, [Ev.callAll])

/-- LeaseController.tryAcquireLease (lease_controller.go lines 128-164):
list all leases, collect their taken subnets, ask the pool for an
available subnet, parse the gateway IP out of its CIDR string, derive
the hardware address, and insert the candidate lease; each step failure
aborts the attempt with a wrapped error. -/
def tryAcquireLease {σ : Type} (c : LeaseController σ) (underlayIP : String)
    (s : σ) : (Option Lease × Option Err) × σ × List Ev :=
  let r₁ := c.DatabaseHandler.All s
  match r₁.1.2 with
  | some e => ((none, some ("getting all subnets: " ++ e)), r₁.2, [Ev.callAll])
  | none =>
    let taken := r₁.1.1.map Lease.OverlaySubnet
    let r₂ := c.CIDRPool taken
    match r₂.2 with
    | some e =>
      ((none, some ("get available subnet: " ++ e)), r₁.2,
        [Ev.callAll, Ev.callGetAvailable taken])
    | none =>
      let r₃ := c.ParseCIDR r₂.1
      match r₃.2 with
      | some e =>
        ((none, some ("parse subnet: " ++ e)), r₁.2,
          [Ev.callAll, Ev.callGetAvailable taken, Ev.callParseCIDR r₂.1])
      | none =>
        let r₄ := c.HardwareAddressGenerator r₃.1
        match r₄.2 with
        | some e =>
          ((none, some ("generate hardware address: " ++ e)), r₁.2,
            [Ev.callAll, Ev.callGetAvailable taken, Ev.callParseCIDR r₂.1,
             Ev.callGenerateForVTEP r₃.1])
        | none =>
          let lease : Lease := ⟨underlayIP, r₂.1, r₄.1⟩
          let r₅ := c.DatabaseHandler.AddEntry lease r₁.2
          match r₅.1 with
          | some e =>
            ((none, some ("adding lease entry: " ++ e)), r₅.2,
              [Ev.callAll, Ev.callGetAvailable taken, Ev.callParseCIDR r₂.1,
               Ev.callGenerateForVTEP r₃.1, Ev.callAddEntry lease])
          | none =>
            ((some lease, none), r₅.2,
              [Ev.callAll, Ev.callGetAvailable taken, Ev.callParseCIDR r₂.1,
               Ev.callGenerateForVTEP r₃.1, Ev.callAddEntry lease])

/-- The retry loop of LeaseController.AcquireSubnetLease
(lease_controller.go lines 108-114): up to the fuel bound, run
tryAcquireLease; on success log and return the lease with a nil error;
on failure carry the attempt result into the next iteration.  The acc
argument is the current (lease, err) pair of the enclosing function,
returned unchanged when the fuel is exhausted (Go line 116). -/
def acquireLoop {σ : Type} (c : LeaseController σ) (underlayIP : String) :
    Option Lease × Option Err → σ → Nat → (Option Lease × Option Err) × σ × List Ev
  | acc, s, 0 => (acc, s, [])
  | _acc, s, n + 1 =>
    let r := tryAcquireLease c underlayIP s
    match r.1.2 with
    | none =>
      ((r.1.1, none), r.2.1, r.2.2 ++ [Ev.logged (LogEntry.leaseAcquired r.1.1)])
    | some e =>
      let rest := acquireLoop c underlayIP (r.1.1, some e) r.2.1 n
      (rest.1, rest.2.1, r.2.2 ++ rest.2.2)

/-- LeaseController.AcquireSubnetLease (lease_controller.go lines
98-117): look the host up; if a lease pointer came back, log a renewal
and return it with a nil error (whatever the lookup error was);
otherwise run the acquisition retry loop seeded with the lookup
result. -/
def AcquireSubnetLease {σ : Type} (c : LeaseController σ)
    (underlayIP : String) (s : σ) : (Option Lease × Option Err) × σ × List Ev :=
  let r₀ := c.DatabaseHandler.LeaseForUnderlayIP underlayIP s
  match r₀.1.1 with
  | some l =>
    ((some l, none), r₀.2,
      [Ev.callLeaseForUnderlayIP underlayIP,
       Ev.logged (LogEntry.leaseRenewed (some l))])
  | none =>
    let r := acquireLoop c underlayIP (none, r₀.1.2) r₀.2
      c.AcquireSubnetLeaseAttempts.toNat
    (r.1, r.2.1, Ev.callLeaseForUnderlayIP underlayIP :: r.2.2)

/-- The store state reached after n acquisition attempts from s. -/
def attemptState {σ : Type} (c : LeaseController σ) (underlayIP : String)
    (s : σ) : Nat → σ
  | 0 => s
  | n + 1 => (tryAcquireLease c underlayIP (attemptState c underlayIP s n)).2.1

/-- The concatenated event traces of the first n acquisition attempts
from s. -/
def attemptTraces {σ : Type} (c : LeaseController σ) (underlayIP : String)
    (s : σ) : Nat → List Ev
  | 0 => []
  | n + 1 =>
    attemptTraces c underlayIP s n ++
      (tryAcquireLease c underlayIP (attemptState c underlayIP s n)).2.2

/-- Number of full-lease-list reads (All calls) in a trace. -/
def countCallAll (tr : List Ev) : Nat :=
  tr.countP (fun e => match e with | Ev.callAll => true | _ => false)

namespace Veth

/-- Address family of a link address (netlink family filter). -/
inductive AddrFamily where
  | v4
  | v6
deriving DecidableEq

/-- Address scope of a link address; link is netlink SCOPE_LINK, the
link-local scope the veth manager assigns. -/
inductive AddrScope where
  | univ
  | link
  | host
deriving DecidableEq

/-- One address held by a link endpoint: its own CIDR string, its peer
CIDR string, its scope and its family. -/
structure VAddr where
  ipnet : String
  peer : String
  scope : AddrScope
  family : AddrFamily
deriving DecidableEq

/-- One end of a veth pair: its link name and its current address
list. -/
structure Endpoint where
  name : String
  addrs : List VAddr
deriving DecidableEq

/-- veth.Pair: the two ends of one veth device. -/
structure Pair where
  host : Endpoint
  container : Endpoint
deriving DecidableEq

/-- Addresses of an endpoint filtered to one family, modelling the
adapter list-addresses call with a family filter. -/
def addrList (e : Endpoint) (fam : AddrFamily) : List VAddr :=
  e.addrs.filter (fun a => decide (a.family = fam))

/-- Modelled from the spec: veth.Manager.CreatePair, whose
implementation is not among the given repository sources (only its test
file is).  Per the spec, creation first checks whether the requested
container-side name already exists in the container namespace (given
here as the list of link names), failing with an error naming the
requested interface and stating it already exists, creating no device;
otherwise the device pair is created, the container end carrying the
requested name and the host end a generated collision-avoiding name.
The kernel may auto-assign IPv6 link-local addresses to fresh ends;
those initial address lists are the autoHostAddrs/autoContAddrs
parameters.  The error message string is the one asserted by the
repository's veth test. -/
def CreatePair (containerName hostName : String) (_mtu : Nat)
    (autoHostAddrs autoContAddrs : List VAddr) (links : List String) :
    Except Err Pair × List String :=
  if containerName ∈ links then
    (Except.error ("container veth name provided (" ++ containerName ++ ") already exists"),
      links)
  else
    (Except.ok ⟨⟨hostName, autoHostAddrs⟩, ⟨containerName, autoContAddrs⟩⟩,
      containerName :: links)

/-- Modelled from the spec: veth.Manager.DisableIPv6, whose
implementation is not among the given repository sources.  Per the
spec, it enumerates the addresses of both ends filtered to the IPv6
family and removes each, leaving every other address in place. -/
def DisableIPv6 (p : Pair) : Pair :=
  ⟨⟨p.host.name, p.host.addrs.filter (fun a => decide (a.family ≠ AddrFamily.v6))⟩,
   ⟨p.container.name, p.container.addrs.filter (fun a => decide (a.family ≠ AddrFamily.v6))⟩⟩

/-- Modelled from the spec: the successful path of
veth.Manager.AssignIP, whose implementation is not among the given
repository sources.  Per the spec, the host end is given address
169.254.0.1/32 with peer containerIP/32 at link-local scope, and the
container end is given containerIP/32 with peer 169.254.0.1/32 at
link-local scope. -/
def AssignIP (p : Pair) (containerIP : String) : Pair :=
  let hostAddr : VAddr :=
    ⟨"169.254.0.1/32", containerIP ++ "/32", AddrScope.link, AddrFamily.v4⟩
  let contAddr : VAddr :=
    ⟨containerIP ++ "/32", "169.254.0.1/32", AddrScope.link, AddrFamily.v4⟩
  ⟨⟨p.host.name, p.host.addrs ++ [hostAddr]⟩,
   ⟨p.container.name, p.container.addrs ++ [contAddr]⟩⟩

end Veth

/-
Concrete collaborator instantiations used to exercise the controller at
specific inputs.  migStore exposes the migration behaviour as a
function of the call index, with the store state counting Migrate
calls, so that attempt counts are observable as the final state.
-/

/-- A store whose Migrate behaviour at its k-th call is f k and whose
state counts Migrate calls; every other method is an inert success. -/
def migStore (f : Nat → Int × Option Err) : databaseHandler Nat where
  Migrate := fun k => (f k, k + 1)
  AddEntry := fun _ k => (none, k)
  DeleteEntry := fun _ k => (none, k)
  LeaseForUnderlayIP := fun _ k => ((none, none), k)
  All := fun k => (([], none), k)

/-- A controller over migStore f with the given migration attempt bound
and sleep duration; the lease-side collaborators are inert. -/
def migController (f : Nat → Int × Option Err) (maxAttempts : Int) (d : Nat) :
    LeaseController Nat where
  DatabaseHandler := migStore f
  HardwareAddressGenerator := fun i => (i, none)
  MaxMigrationAttempts := maxAttempts
  MigrationAttemptSleepDuration := d
  AcquireSubnetLeaseAttempts := 0
  CIDRPool := fun _ => ("", none)
  UnderlayIP := ""
  ParseCIDR := fun s => (s, none)

/-- An in-memory list-backed store: lookups scan by UnderlayIP, insert
conses, delete filters; no method ever errors. -/
def listStore : databaseHandler (List Lease) where
  Migrate := fun s => ((0, none), s)
  AddEntry := fun l s => (none, l :: s)
  DeleteEntry := fun ip s => (none, s.filter (fun l => decide (l.UnderlayIP ≠ ip)))
  LeaseForUnderlayIP := fun ip s => ((s.find? (fun l => decide (l.UnderlayIP = ip)), none), s)
  All := fun s => ((s, none), s)

/-- A controller over the list-backed store with a pool that always
hands out 10.255.30.0/24, a parser yielding its gateway IP and a
generator deriving a fixed MAC string from it. -/
def listController : LeaseController (List Lease) where
  DatabaseHandler := listStore
  HardwareAddressGenerator := fun i => ("ee:ee:" ++ i, none)
  MaxMigrationAttempts := 5
  MigrationAttemptSleepDuration := 1
  AcquireSubnetLeaseAttempts := 10
  CIDRPool := fun _ => ("10.255.30.0/24", none)
  UnderlayIP := "10.0.0.1"
  ParseCIDR := fun _ => ("10.255.30.0", none)

/-- A store whose lookup-by-host always errors while every other method
succeeds; state is trivial. -/
def lookupFailStore : databaseHandler Unit where
  Migrate := fun s => ((0, none), s)
  AddEntry := fun _ s => (none, s)
  DeleteEntry := fun _ s => (none, s)
  LeaseForUnderlayIP := fun _ s => ((none, some "lookup failed"), s)
  All := fun s => (([], none), s)

/-- A controller over lookupFailStore whose acquisition collaborators
all succeed, so an acquisition attempt after the failed lookup
succeeds. -/
def lookupFailController : LeaseController Unit where
  DatabaseHandler := lookupFailStore
  HardwareAddressGenerator := fun _ => ("ee:ee:0a:ff:01:00", none)
  MaxMigrationAttempts := 5
  MigrationAttemptSleepDuration := 1
  AcquireSubnetLeaseAttempts := 10
  CIDRPool := fun _ => ("10.255.1.0/24", none)
  UnderlayIP := "10.0.0.5"
  ParseCIDR := fun _ => ("10.255.1.0", none)

/-- A store whose every method errors. -/
def allFailStore : databaseHandler Unit where
  Migrate := fun s => ((0, some "migrate down"), s)
  AddEntry := fun _ s => (some "insert down", s)
  DeleteEntry := fun _ s => (some "delete down", s)
  LeaseForUnderlayIP := fun _ s => ((none, some "lookup down"), s)
  All := fun s => (([], some "list down"), s)

/-- A controller over allFailStore; pool and generator succeed but are
never reached because every store call fails first. -/
def allFailController : LeaseController Unit where
  DatabaseHandler := allFailStore
  HardwareAddressGenerator := fun i => (i, none)
  MaxMigrationAttempts := 1
  MigrationAttemptSleepDuration := 1
  AcquireSubnetLeaseAttempts := 2
  CIDRPool := fun _ => ("10.255.1.0/24", none)
  UnderlayIP := "10.0.0.5"
  ParseCIDR := fun s => (s, none)

/-- An always-succeeding trivial store over a unit state. -/
def okStore : databaseHandler Unit where
  Migrate := fun s => ((0, none), s)
  AddEntry := fun _ s => (none, s)
  DeleteEntry := fun _ s => (none, s)
  LeaseForUnderlayIP := fun _ s => ((none, none), s)
  All := fun s => (([], none), s)

/-- A controller whose pool always reports exhaustion while the store
succeeds. -/
def poolFailController : LeaseController Unit where
  DatabaseHandler := okStore
  HardwareAddressGenerator := fun i => (i, none)
  MaxMigrationAttempts := 1
  MigrationAttemptSleepDuration := 1
  AcquireSubnetLeaseAttempts := 2
  CIDRPool := fun _ => ("", some "no subnets available")
  UnderlayIP := "10.0.0.5"
  ParseCIDR := fun s => (s, none)

/-- A controller whose CIDR parser always errors while store and pool
succeed. -/
def parseFailController : LeaseController Unit where
  DatabaseHandler := okStore
  HardwareAddressGenerator := fun i => (i, none)
  MaxMigrationAttempts := 1
  MigrationAttemptSleepDuration := 1
  AcquireSubnetLeaseAttempts := 2
  CIDRPool := fun _ => ("bogus", none)
  UnderlayIP := "10.0.0.5"
  ParseCIDR := fun _ => ("", some "invalid CIDR address: bogus")

/-- A controller whose hardware address generator always errors while
store, pool and parser succeed. -/
def hwFailController : LeaseController Unit where
  DatabaseHandler := okStore
  HardwareAddressGenerator := fun _ => ("", some "address out of range")
  MaxMigrationAttempts := 1
  MigrationAttemptSleepDuration := 1
  AcquireSubnetLeaseAttempts := 2
  CIDRPool := fun _ => ("10.255.1.0/24", none)
  UnderlayIP := "10.0.0.5"
  ParseCIDR := fun _ => ("10.255.1.0", none)

/-- A store that accepts no inserts (uniqueness violation on every
AddEntry) while everything else succeeds. -/
def insertFailStore : databaseHandler Unit where
  Migrate := fun s => ((0, none), s)
  AddEntry := fun _ s => (some "UNIQUE constraint failed", s)
  DeleteEntry := fun _ s => (none, s)
  LeaseForUnderlayIP := fun _ s => ((none, none), s)
  All := fun s => (([], none), s)

/-- A controller over insertFailStore: every acquisition attempt
reaches the insert and loses the race there. -/
def insertFailController : LeaseController Unit where
  DatabaseHandler := insertFailStore
  HardwareAddressGenerator := fun _ => ("ee:ee:0a:ff:01:00", none)
  MaxMigrationAttempts := 1
  MigrationAttemptSleepDuration := 1
  AcquireSubnetLeaseAttempts := 3
  CIDRPool := fun _ => ("10.255.1.0/24", none)
  UnderlayIP := "10.0.0.5"
  ParseCIDR := fun _ => ("10.255.1.0", none)

/-- A controller over lookupFailStore that is configured to make no
acquisition attempts. -/
def zeroAttemptController : LeaseController Unit where
  DatabaseHandler := lookupFailStore
  HardwareAddressGenerator := fun i => (i, none)
  MaxMigrationAttempts := 1
  MigrationAttemptSleepDuration := 1
  AcquireSubnetLeaseAttempts := 0
  CIDRPool := fun _ => ("10.255.1.0/24", none)
  UnderlayIP := "10.0.0.5"
  ParseCIDR := fun s => (s, none)

/-- One acquisition attempt yields either a nil lease or a nil error,
reads the full lease list exactly once, and never sleeps. -/
lemma tryAcquireLease_run {σ : Type} (c : LeaseController σ)
    (ip : String) (s : σ) :
    (((tryAcquireLease c ip s).1).1 = none
        ∨ ((tryAcquireLease c ip s).1).2 = none)
      ∧ countCallAll (tryAcquireLease c ip s).2.2 = 1
      ∧ ∀ d, Ev.sleep d ∉ (tryAcquireLease c ip s).2.2 := by
  rcases hAll : c.DatabaseHandler.All s with ⟨⟨leases, aerr⟩, s₁⟩
  rcases hPool : c.CIDRPool (leases.map Lease.OverlaySubnet) with ⟨subnet, perr⟩
  rcases hParse : c.ParseCIDR subnet with ⟨vip, cerr⟩
  rcases hHw : c.HardwareAddressGenerator vip with ⟨hw, herr⟩
  rcases hAdd : c.DatabaseHandler.AddEntry ⟨ip, subnet, hw⟩ s₁ with ⟨adderr, s₂⟩
  cases aerr <;> cases perr <;> cases cerr <;> cases herr <;> cases adderr <;>
    simp [tryAcquireLease, hAll, hPool, hParse, hHw, hAdd, countCallAll]

/-- A failed acquisition attempt returns a nil lease. -/
lemma tryAcquireLease_fail_none {σ : Type} (c : LeaseController σ)
    (ip : String) (s : σ) (h : (((tryAcquireLease c ip s).1).2).isSome) :
    ((tryAcquireLease c ip s).1).1 = none := by
  rcases (tryAcquireLease_run c ip s).1 with h1 | h1
  · exact h1
  · rw [h1] at h
    simp at h

/-- Every acquisition attempt reads the full lease list exactly once. -/
lemma tryAcquireLease_one_callAll {σ : Type} (c : LeaseController σ)
    (ip : String) (s : σ) :
    countCallAll (tryAcquireLease c ip s).2.2 = 1 :=
  (tryAcquireLease_run c ip s).2.1

/-- An acquisition attempt never sleeps. -/
lemma tryAcquireLease_no_sleep {σ : Type} (c : LeaseController σ)
    (ip : String) (s : σ) (d : Nat) :
    Ev.sleep d ∉ (tryAcquireLease c ip s).2.2 :=
  (tryAcquireLease_run c ip s).2.2 d

/-- Shifting the start of the attempt-state iteration by one step. -/
lemma attemptState_shift {σ : Type} (c : LeaseController σ) (ip : String)
    (s : σ) (n : Nat) :
    attemptState c ip (tryAcquireLease c ip s).2.1 n
      = attemptState c ip s (n + 1) := by
  induction n with
  | zero => rfl
  | succ k ih => simp [attemptState, ih]

/-- Shifting the start of the attempt-trace concatenation by one
step. -/
lemma attemptTraces_shift {σ : Type} (c : LeaseController σ) (ip : String)
    (s : σ) (n : Nat) :
    (tryAcquireLease c ip s).2.2
        ++ attemptTraces c ip (tryAcquireLease c ip s).2.1 n
      = attemptTraces c ip s (n + 1) := by
  induction n with
  | zero => simp [attemptTraces, attemptState]
  | succ k ih =>
    simp only [attemptTraces, ← List.append_assoc, ih, attemptState_shift]

/-- When every acquisition attempt fails, the retry loop with positive
fuel returns the result of its last attempt, finishes in the state
after all its attempts, and emits exactly the attempts' traces. -/
lemma acquireLoop_fail {σ : Type} (c : LeaseController σ) (ip : String)
    (hfail : ∀ s : σ, (((tryAcquireLease c ip s).1).2).isSome) :
    ∀ (n : Nat) (s : σ) (acc : Option Lease × Option Err),
      acquireLoop c ip acc s (n + 1)
        = ((tryAcquireLease c ip (attemptState c ip s n)).1,
            attemptState c ip s (n + 1),
            attemptTraces c ip s (n + 1)) := by
  intro n
  induction n with
  | zero =>
    intro s acc
    obtain ⟨e, he⟩ := Option.isSome_iff_exists.mp (hfail s)
    simp only [acquireLoop, he, attemptState, attemptTraces]
    simp [Prod.ext_iff, he]
  | succ k ih =>
    intro s acc
    obtain ⟨e, he⟩ := Option.isSome_iff_exists.mp (hfail s)
    have step : acquireLoop c ip acc s (k + 1 + 1)
        = ((acquireLoop c ip (((tryAcquireLease c ip s).1).1, some e)
              (tryAcquireLease c ip s).2.1 (k + 1)).1,
           (acquireLoop c ip (((tryAcquireLease c ip s).1).1, some e)
              (tryAcquireLease c ip s).2.1 (k + 1)).2.1,
           (tryAcquireLease c ip s).2.2 ++
             (acquireLoop c ip (((tryAcquireLease c ip s).1).1, some e)
                (tryAcquireLease c ip s).2.1 (k + 1)).2.2) := by
      conv_lhs => rw [acquireLoop]
      simp only [he]
    rw [step, ih]
    simp [attemptState_shift, attemptTraces_shift]

/-- The concatenated traces of n attempts contain exactly n full-list
reads. -/
lemma attemptTraces_countCallAll {σ : Type} (c : LeaseController σ)
    (ip : String) (s : σ) (n : Nat) :
    countCallAll (attemptTraces c ip s n) = n := by
  induction n with
  | zero => simp [attemptTraces, countCallAll]
  | succ k ih =>
    have h1 := tryAcquireLease_one_callAll c ip (attemptState c ip s k)
    simp only [attemptTraces, countCallAll, List.countP_append] at *
    omega

/-- The concatenated traces of n attempts contain no sleep. -/
lemma attemptTraces_no_sleep {σ : Type} (c : LeaseController σ)
    (ip : String) (s : σ) (n : Nat) (d : Nat) :
    Ev.sleep d ∉ attemptTraces c ip s n := by
  induction n with
  | zero => simp [attemptTraces]
  | succ k ih =>
    have h1 := tryAcquireLease_no_sleep c ip (attemptState c ip s k) d
    simp only [attemptTraces, List.mem_append]
    tauto

/-- The Migrate method of migController unfolds to its defining
function. -/
lemma migController_Migrate (f : Nat → Int × Option Err) (maxA : Int)
    (d : Nat) :
    (migController f maxA d).DatabaseHandler.Migrate = fun k => (f k, k + 1) :=
  rfl

/-- The sleep duration of migController is its d argument. -/
lemma migController_sleep (f : Nat → Int × Option Err) (maxA : Int)
    (d : Nat) :
    (migController f maxA d).MigrationAttemptSleepDuration = d :=
  rfl

/-- The migration attempt bound of migController is its maxAttempts
argument. -/
lemma migController_max (f : Nat → Int × Option Err) (maxA : Int) (d : Nat) :
    (migController f maxA d).MaxMigrationAttempts = maxA :=
  rfl

/-- Under a persistently failing Migrate, the migration loop with
positive fuel consumes all its fuel, returns the wrapped error of its
last Migrate call, and sleeps the configured duration after every
failure. -/
lemma tryMigrationsLoop_allFail (f : Nat → Int × Option Err) (maxA : Int)
    (d : Nat) (hfail : ∀ i, ((f i).2).isSome) :
    ∀ (n k : Nat) (lastE : Option Err),
      tryMigrationsLoop (migController f maxA d) k lastE (n + 1)
        = (some ("creating table: " ++ goErrString (f (k + n)).2),
           k + n + 1,
           (List.replicate (n + 1) [Ev.callMigrate, Ev.sleep d]).flatten) := by
  intro n
  induction n with
  | zero =>
    intro k lastE
    obtain ⟨e, he⟩ := Option.isSome_iff_exists.mp (hfail k)
    conv_lhs => rw [tryMigrationsLoop]
    simp [migController_Migrate, migController_sleep, he, tryMigrationsLoop,
      goErrString]
  | succ m ih =>
    intro k lastE
    obtain ⟨e, he⟩ := Option.isSome_iff_exists.mp (hfail k)
    conv_lhs => rw [tryMigrationsLoop]
    simp only [migController_Migrate, migController_sleep, he]
    rw [ih (k + 1)]
    have harith : k + 1 + m = k + (m + 1) := by omega
    simp [harith, List.replicate_succ]

/-- When Migrate fails below index M and succeeds at M, the migration
loop succeeds as soon as its fuel reaches past M. -/
lemma tryMigrationsLoop_succeeds (f : Nat → Int × Option Err) (maxA : Int)
    (d : Nat) (M : Nat) (hfail : ∀ i, i < M → ((f i).2).isSome)
    (hsucc : (f M).2 = none) :
    ∀ (fuel k : Nat) (lastE : Option Err), k ≤ M → M < k + fuel →
      (tryMigrationsLoop (migController f maxA d) k lastE fuel).1 = none := by
  intro fuel
  induction fuel with
  | zero =>
    intro k lastE hk hM
    exact absurd hM (by omega)
  | succ m ih =>
    intro k lastE hk hM
    by_cases hkM : k = M
    · subst hkM
      conv_lhs => rw [tryMigrationsLoop]
      simp [migController_Migrate, hsucc]
    · have hklt : k < M := lt_of_le_of_ne hk hkM
      obtain ⟨e, he⟩ := Option.isSome_iff_exists.mp (hfail k hklt)
      conv_lhs => rw [tryMigrationsLoop]
      simp only [migController_Migrate, migController_sleep, he]
      exact ih (k + 1) (some e) (by omega) (by omega)

/-
Claim theorems.
-/

/-- Claim C1: a successful acquisition attempt returns a lease whose
UnderlayIP is the requested host identifier, whose OverlaySubnet is
exactly the subnet the pool returned for the set of OverlaySubnet
values of all currently stored leases, and whose OverlayHardwareAddr is
the generator's derivation from the gateway IP parsed out of that
subnet's CIDR string; the lease handed to the store's atomic insert is
this same tuple. -/
theorem C1_try_acquire_success {σ : Type} (c : LeaseController σ)
    (ip : String) (s : σ) (lease : Lease) (s' : σ) (tr : List Ev)
    (h : tryAcquireLease c ip s = ((some lease, none), s', tr)) :
    ∃ leases s₁ subnet vtepIP hwAddr,
      c.DatabaseHandler.All s = ((leases, none), s₁)
      ∧ c.CIDRPool (leases.map Lease.OverlaySubnet) = (subnet, none)
      ∧ c.ParseCIDR subnet = (vtepIP, none)
      ∧ c.HardwareAddressGenerator vtepIP = (hwAddr, none)
      ∧ lease = ⟨ip, subnet, hwAddr⟩
      ∧ c.DatabaseHandler.AddEntry lease s₁ = (none, s')
      ∧ Ev.callAddEntry lease ∈ tr := by
  rcases hAll : c.DatabaseHandler.All s with ⟨⟨leases, aerr⟩, s₁⟩
  rcases hPool : c.CIDRPool (leases.map Lease.OverlaySubnet) with ⟨subnet, perr⟩
  rcases hParse : c.ParseCIDR subnet with ⟨vip, cerr⟩
  rcases hHw : c.HardwareAddressGenerator vip with ⟨hw, herr⟩
  rcases hAdd : c.DatabaseHandler.AddEntry ⟨ip, subnet, hw⟩ s₁ with ⟨adderr, s₂⟩
  cases aerr <;> cases perr <;> cases cerr <;> cases herr <;> cases adderr <;>
    simp [tryAcquireLease, hAll, hPool, hParse, hHw, hAdd] at h
  obtain ⟨hl, hs, htr⟩ := h
  subst hl
  subst hs
  subst htr
  exact ⟨leases, s₁, subnet, vip, hw, rfl, hPool, hParse, hHw, rfl, hAdd, by simp⟩

/-- Witness for C1: the list-backed controller acquiring from an empty
store returns the 10.255.30.0/24 lease built from its collaborators and
inserts that same tuple. -/
theorem C1_witness :
    ∃ leases s₁ subnet vtepIP hwAddr,
      listController.DatabaseHandler.All [] = ((leases, none), s₁)
      ∧ listController.CIDRPool (leases.map Lease.OverlaySubnet) = (subnet, none)
      ∧ listController.ParseCIDR subnet = (vtepIP, none)
      ∧ listController.HardwareAddressGenerator vtepIP = (hwAddr, none)
      ∧ (⟨"10.0.0.1", "10.255.30.0/24", "ee:ee:10.255.30.0"⟩ : Lease)
          = ⟨"10.0.0.1", subnet, hwAddr⟩
      ∧ listController.DatabaseHandler.AddEntry
          ⟨"10.0.0.1", "10.255.30.0/24", "ee:ee:10.255.30.0"⟩ s₁
          = (none, [⟨"10.0.0.1", "10.255.30.0/24", "ee:ee:10.255.30.0"⟩])
      ∧ Ev.callAddEntry ⟨"10.0.0.1", "10.255.30.0/24", "ee:ee:10.255.30.0"⟩
          ∈ [Ev.callAll, Ev.callGetAvailable [],
             Ev.callParseCIDR "10.255.30.0/24",
             Ev.callGenerateForVTEP "10.255.30.0",
             Ev.callAddEntry ⟨"10.0.0.1", "10.255.30.0/24", "ee:ee:10.255.30.0"⟩] :=
  C1_try_acquire_success listController "10.0.0.1" []
    ⟨"10.0.0.1", "10.255.30.0/24", "ee:ee:10.255.30.0"⟩
    [⟨"10.0.0.1", "10.255.30.0/24", "ee:ee:10.255.30.0"⟩]
    [Ev.callAll, Ev.callGetAvailable [],
     Ev.callParseCIDR "10.255.30.0/24",
     Ev.callGenerateForVTEP "10.255.30.0",
     Ev.callAddEntry ⟨"10.0.0.1", "10.255.30.0/24", "ee:ee:10.255.30.0"⟩]
    (by decide)

/-- Claim C2: when the lookup by host identifier returns an existing
lease, AcquireSubnetLease returns that lease unchanged with a nil
error, and neither the pool (GetAvailable), nor the generator
(GenerateForVTEP), nor the store insert (AddEntry) is invoked on that
call. -/
theorem C2_renewal {σ : Type} (c : LeaseController σ) (ip : String) (s : σ)
    (l : Lease) (e : Option Err) (s₁ : σ)
    (hlook : c.DatabaseHandler.LeaseForUnderlayIP ip s = ((some l, e), s₁)) :
    AcquireSubnetLease c ip s
        = ((some l, none), s₁,
           [Ev.callLeaseForUnderlayIP ip,
            Ev.logged (LogEntry.leaseRenewed (some l))])
      ∧ (∀ taken, Ev.callGetAvailable taken ∉ (AcquireSubnetLease c ip s).2.2)
      ∧ (∀ vip, Ev.callGenerateForVTEP vip ∉ (AcquireSubnetLease c ip s).2.2)
      ∧ (∀ le, Ev.callAddEntry le ∉ (AcquireSubnetLease c ip s).2.2) := by
  have hmain : AcquireSubnetLease c ip s
      = ((some l, none), s₁,
         [Ev.callLeaseForUnderlayIP ip,
          Ev.logged (LogEntry.leaseRenewed (some l))]) := by
    simp [AcquireSubnetLease, hlook]
  refine ⟨hmain, ?_, ?_, ?_⟩ <;> intro x <;> simp [hmain]

/-- Witness for C2: looking up a host that holds a lease in the
list-backed store returns that lease and performs no pool, generator or
insert call. -/
theorem C2_witness :
    AcquireSubnetLease listController "10.0.0.1"
          [⟨"10.0.0.1", "10.255.30.0/24", "aa:bb"⟩]
        = ((some ⟨"10.0.0.1", "10.255.30.0/24", "aa:bb"⟩, none),
           [⟨"10.0.0.1", "10.255.30.0/24", "aa:bb"⟩],
           [Ev.callLeaseForUnderlayIP "10.0.0.1",
            Ev.logged (LogEntry.leaseRenewed
              (some ⟨"10.0.0.1", "10.255.30.0/24", "aa:bb"⟩))])
      ∧ (∀ taken, Ev.callGetAvailable taken
          ∉ (AcquireSubnetLease listController "10.0.0.1"
              [⟨"10.0.0.1", "10.255.30.0/24", "aa:bb"⟩]).2.2)
      ∧ (∀ vip, Ev.callGenerateForVTEP vip
          ∉ (AcquireSubnetLease listController "10.0.0.1"
              [⟨"10.0.0.1", "10.255.30.0/24", "aa:bb"⟩]).2.2)
      ∧ (∀ le, Ev.callAddEntry le
          ∉ (AcquireSubnetLease listController "10.0.0.1"
              [⟨"10.0.0.1", "10.255.30.0/24", "aa:bb"⟩]).2.2) :=
  C2_renewal listController "10.0.0.1"
    [⟨"10.0.0.1", "10.255.30.0/24", "aa:bb"⟩]
    ⟨"10.0.0.1", "10.255.30.0/24", "aa:bb"⟩ none
    [⟨"10.0.0.1", "10.255.30.0/24", "aa:bb"⟩]
    (by decide)

/-- Claim C10: when AcquireSubnetLeaseAttempts is zero or negative and
the lookup finds no lease, AcquireSubnetLease makes no acquisition
attempt and returns a nil lease together with the initial lookup's
error, whatever it was — in particular a nil lease with a nil error
when the lookup succeeded. -/
theorem C10_no_attempts {σ : Type} (c : LeaseController σ) (ip : String)
    (s : σ) (e₀ : Option Err) (s₁ : σ)
    (hle : c.AcquireSubnetLeaseAttempts ≤ 0)
    (hlook : c.DatabaseHandler.LeaseForUnderlayIP ip s = ((none, e₀), s₁)) :
    AcquireSubnetLease c ip s
        = ((none, e₀), s₁, [Ev.callLeaseForUnderlayIP ip])
      ∧ countCallAll (AcquireSubnetLease c ip s).2.2 = 0 := by
  have htn : c.AcquireSubnetLeaseAttempts.toNat = 0 := by omega
  have hmain : AcquireSubnetLease c ip s
      = ((none, e₀), s₁, [Ev.callLeaseForUnderlayIP ip]) := by
    simp [AcquireSubnetLease, hlook, htn, acquireLoop]
  exact ⟨hmain, by simp [hmain, countCallAll]⟩

/-- Witness for C10: a controller with a zero attempt bound whose
lookup succeeds with no lease returns a nil lease and a nil error,
reading the lease list zero times. -/
theorem C10_witness :
    AcquireSubnetLease (migController (fun _ => ((0 : Int), none)) 5 1) "host-a" 0
        = ((none, none), 0, [Ev.callLeaseForUnderlayIP "host-a"])
      ∧ countCallAll
          (AcquireSubnetLease (migController (fun _ => ((0 : Int), none)) 5 1)
            "host-a" 0).2.2 = 0 :=
  C10_no_attempts (migController (fun _ => ((0 : Int), none)) 5 1) "host-a" 0
    none 0 (by decide) (by decide)

/-- Claim C3: when no lease exists for the host and every acquisition
attempt fails, AcquireSubnetLease performs exactly
AcquireSubnetLeaseAttempts attempts, each reading the full lease list
afresh (one All call per attempt), never sleeps between attempts, and
returns a nil lease with the error of the last failed attempt. -/
theorem C3_exhaustion {σ : Type} (c : LeaseController σ) (ip : String)
    (s : σ) (e₀ : Option Err) (s₁ : σ)
    (hnn : 0 ≤ c.AcquireSubnetLeaseAttempts)
    (hlook : c.DatabaseHandler.LeaseForUnderlayIP ip s = ((none, e₀), s₁))
    (hfail : ∀ t : σ, (((tryAcquireLease c ip t).1).2).isSome) :
    ((countCallAll (AcquireSubnetLease c ip s).2.2 : Int)
        = c.AcquireSubnetLeaseAttempts)
      ∧ (∀ d, Ev.sleep d ∉ (AcquireSubnetLease c ip s).2.2)
      ∧ ((AcquireSubnetLease c ip s).1).1 = none
      ∧ (0 < c.AcquireSubnetLeaseAttempts →
          (AcquireSubnetLease c ip s).1
            = (tryAcquireLease c ip
                (attemptState c ip s₁
                  (c.AcquireSubnetLeaseAttempts.toNat - 1))).1) := by
  cases hn : c.AcquireSubnetLeaseAttempts.toNat with
  | zero =>
    have hmain : AcquireSubnetLease c ip s
        = ((none, e₀), s₁, [Ev.callLeaseForUnderlayIP ip]) := by
      simp [AcquireSubnetLease, hlook, hn, acquireLoop]
    refine ⟨?_, ?_, ?_, ?_⟩
    · rw [hmain]
      simp [countCallAll]
      omega
    · intro d
      rw [hmain]
      simp
    · rw [hmain]
    · intro hpos
      exfalso
      omega
  | succ m =>
    have hmain : AcquireSubnetLease c ip s
        = ((tryAcquireLease c ip (attemptState c ip s₁ m)).1,
           attemptState c ip s₁ (m + 1),
           Ev.callLeaseForUnderlayIP ip :: attemptTraces c ip s₁ (m + 1)) := by
      simp only [AcquireSubnetLease, hlook, hn,
        acquireLoop_fail c ip hfail m s₁]
    have hcount : countCallAll
        (Ev.callLeaseForUnderlayIP ip :: attemptTraces c ip s₁ (m + 1))
          = m + 1 := by
      have h1 := attemptTraces_countCallAll c ip s₁ (m + 1)
      simp [countCallAll, List.countP_cons] at h1 ⊢
      omega
    refine ⟨?_, ?_, ?_, ?_⟩
    · rw [hmain, hcount]
      omega
    · intro d
      rw [hmain]
      simp [attemptTraces_no_sleep c ip s₁ (m + 1) d]
    · rw [hmain]
      exact tryAcquireLease_fail_none c ip _ (hfail _)
    · intro hpos
      rw [hmain]
      simp [hn]

/-- Witness for C3: against a store whose list call is down, the
controller with attempt bound 2 reads the list twice, never sleeps, and
surfaces the wrapped error of its last attempt with a nil lease. -/
theorem C3_witness :
    ((countCallAll (AcquireSubnetLease allFailController "10.0.0.5" ()).2.2 : Int) = 2)
      ∧ (∀ d, Ev.sleep d ∉ (AcquireSubnetLease allFailController "10.0.0.5" ()).2.2)
      ∧ ((AcquireSubnetLease allFailController "10.0.0.5" ()).1).1 = none
      ∧ (AcquireSubnetLease allFailController "10.0.0.5" ()).1
          = (none, some "getting all subnets: list down") := by
  have h := C3_exhaustion allFailController "10.0.0.5" () (some "lookup down") ()
    (by decide) (by decide) (fun _ => rfl)
  refine ⟨h.1, h.2.1, h.2.2.1, ?_⟩
  have h4 := h.2.2.2 (by decide)
  rw [h4]
  decide

/-- Claim C4: over a store whose k-th Migrate call behaves as f k, if
Migrate fails exactly M times and then succeeds, TryMigrations succeeds
whenever MaxMigrationAttempts exceeds M; if Migrate fails persistently,
TryMigrations makes exactly MaxMigrationAttempts Migrate calls (the
final state counts them), returns an error naming the last underlying
failure, and sleeps the fixed configured duration after every failed
attempt — with no classification of the migration error. -/
theorem C4_migration_retry :
    ∀ (f : Nat → Int × Option Err) (M : Nat) (maxA : Int) (d : Nat),
      ((∀ i, i < M → ((f i).2).isSome) → (f M).2 = none → (M : Int) < maxA →
        (TryMigrations (migController f maxA d) 0).1 = none)
      ∧ ((∀ i, ((f i).2).isSome) → 0 < maxA →
          (TryMigrations (migController f maxA d) 0).1
              = some ("creating table: " ++ goErrString (f (maxA.toNat - 1)).2)
            ∧ (TryMigrations (migController f maxA d) 0).2.1 = maxA.toNat
            ∧ (TryMigrations (migController f maxA d) 0).2.2
              = (List.replicate maxA.toNat [Ev.callMigrate, Ev.sleep d]).flatten) := by
  intro f M maxA d
  constructor
  · intro hfail hsucc hM
    unfold TryMigrations
    rw [migController_max]
    exact tryMigrationsLoop_succeeds f maxA d M hfail hsucc maxA.toNat 0 none
      (by omega) (by omega)
  · intro hfail hpos
    unfold TryMigrations
    rw [migController_max]
    obtain ⟨m, hm⟩ : ∃ m, maxA.toNat = m + 1 := ⟨maxA.toNat - 1, by omega⟩
    rw [hm, tryMigrationsLoop_allFail f maxA d hfail m 0 none]
    refine ⟨?_, ?_, ?_⟩ <;> simp [hm]

/-- Witness for C4: a store failing once then succeeding migrates under
a bound of 3; a store that is persistently down exhausts a bound of 2
with two calls, two fixed sleeps, and the wrapped last error. -/
theorem C4_witness :
    ((TryMigrations
        (migController (fun i => ((3 : Int), if i = 0 then some "boom" else none)) 3 1)
        0).1 = none)
      ∧ ((TryMigrations (migController (fun _ => ((0 : Int), some "db down")) 2 1) 0).1
            = some "creating table: db down"
          ∧ (TryMigrations (migController (fun _ => ((0 : Int), some "db down")) 2 1) 0).2.1
            = 2
          ∧ (TryMigrations (migController (fun _ => ((0 : Int), some "db down")) 2 1) 0).2.2
            = [Ev.callMigrate, Ev.sleep 1, Ev.callMigrate, Ev.sleep 1]) := by
  constructor
  · exact (C4_migration_retry
        (fun i => ((3 : Int), if i = 0 then some "boom" else none)) 1 3 1).1
      (fun i hi => by rw [show i = 0 from Nat.lt_one_iff.mp hi]; decide)
      (by decide) (by decide)
  · have h := (C4_migration_retry (fun _ => ((0 : Int), some "db down")) 0 2 1).2
      (fun _ => rfl) (by decide)
    refine ⟨?_, ?_, ?_⟩
    · rw [h.1]
      decide
    · rw [h.2.1]
      decide
    · rw [h.2.2]
      decide

/-- Counterexample to claim C5: TryMigrations does not return the
applied-change count to its caller — two stores applying different
counts (3 and 7) produce identical return values, the count appearing
only in the log trace. -/
theorem C5_counterexample :
    (TryMigrations (migController (fun _ => ((3 : Int), none)) 5 1) 0).1
        = (TryMigrations (migController (fun _ => ((7 : Int), none)) 5 1) 0).1
      ∧ (TryMigrations (migController (fun _ => ((3 : Int), none)) 5 1) 0).1 = none
      ∧ (TryMigrations (migController (fun _ => ((3 : Int), none)) 5 1) 0).2.2
          = [Ev.callMigrate, Ev.logged (LogEntry.migrationComplete 3)]
      ∧ (TryMigrations (migController (fun _ => ((7 : Int), none)) 5 1) 0).2.2
          = [Ev.callMigrate, Ev.logged (LogEntry.migrationComplete 7)]
      ∧ (3 : Int) ≠ 7 := by
  decide

/-- Claim C5 as amended: on success TryMigrations returns nil — the
success value carries no count — and the count of schema changes
applied by the store migration is emitted to the log. -/
theorem C5_amended_success_logs_count {σ : Type} (c : LeaseController σ)
    (s : σ) (n : Int) (s₁ : σ) (hpos : 0 < c.MaxMigrationAttempts)
    (hmig : c.DatabaseHandler.Migrate s = ((n, none), s₁)) :
    TryMigrations c s
      = (none, s₁, [Ev.callMigrate, Ev.logged (LogEntry.migrationComplete n)]) := by
  unfold TryMigrations
  obtain ⟨m, hm⟩ : ∃ m, c.MaxMigrationAttempts.toNat = m + 1 :=
    ⟨c.MaxMigrationAttempts.toNat - 1, by omega⟩
  rw [hm]
  conv_lhs => rw [tryMigrationsLoop]
  simp [hmig]

/-- Witness for the amended C5: a store applying 4 changes yields a nil
error and the count 4 in the log. -/
theorem C5_amended_witness :
    TryMigrations (migController (fun _ => ((4 : Int), none)) 5 1) 0
      = (none, 1, [Ev.callMigrate, Ev.logged (LogEntry.migrationComplete 4)]) :=
  C5_amended_success_logs_count (migController (fun _ => ((4 : Int), none)) 5 1)
    0 4 1 (by decide) (by decide)

/-- Counterexample to claim C6: the error of the initial lookup-by-host
inside AcquireSubnetLease is not propagated — against a store whose
lookup errors while an acquisition attempt succeeds, the call reports a
successful lease with a nil error, discarding the lookup error. -/
theorem C6_counterexample :
    (lookupFailController.DatabaseHandler.LeaseForUnderlayIP "10.0.0.5" ()).1.2
        = some "lookup failed"
      ∧ (AcquireSubnetLease lookupFailController "10.0.0.5" ()).1
        = (some ⟨"10.0.0.5", "10.255.1.0/24", "ee:ee:0a:ff:01:00"⟩, none) := by
  decide

/-- Claim C6 as amended: migration, release, list, and every store call
inside an acquisition attempt propagate underlying errors to the
immediate caller wrapped with the operation's context; the initial
lookup-by-host error in AcquireSubnetLease, however, is returned only
when the attempt bound is at most zero, and is otherwise superseded by
the acquisition loop's outcome. -/
theorem C6_amended_error_propagation :
    (∀ (σ : Type) (c : LeaseController σ) (s : σ) (e : Err) (s₁ : σ),
        c.DatabaseHandler.DeleteEntry c.UnderlayIP s = (some e, s₁) →
        (ReleaseSubnetLease c s).1 = some ("releasing lease: " ++ e))
    ∧ (∀ (σ : Type) (c : LeaseController σ) (s : σ) (ls : List Lease) (e : Err) (s₁ : σ),
        c.DatabaseHandler.All s = ((ls, some e), s₁) →
        ((RoutableLeases c s).1).2 = some ("getting all leases: " ++ e))
    ∧ (∀ (σ : Type) (c : LeaseController σ) (s : σ) (n : Int) (e : Err) (s₁ : σ),
        c.MaxMigrationAttempts = 1 →
        c.DatabaseHandler.Migrate s = ((n, some e), s₁) →
        (TryMigrations c s).1 = some ("creating table: " ++ e))
    ∧ (∀ (σ : Type) (c : LeaseController σ) (ip : String) (s : σ)
          (ls : List Lease) (e : Err) (s₁ : σ),
        c.DatabaseHandler.All s = ((ls, some e), s₁) →
        ((tryAcquireLease c ip s).1).2 = some ("getting all subnets: " ++ e))
    ∧ (∀ (σ : Type) (c : LeaseController σ) (ip : String) (s : σ)
          (ls : List Lease) (s₁ : σ) (sub : String) (e : Err),
        c.DatabaseHandler.All s = ((ls, none), s₁) →
        c.CIDRPool (ls.map Lease.OverlaySubnet) = (sub, some e) →
        ((tryAcquireLease c ip s).1).2 = some ("get available subnet: " ++ e))
    ∧ (∀ (σ : Type) (c : LeaseController σ) (ip : String) (s : σ)
          (ls : List Lease) (s₁ : σ) (sub vip : String) (e : Err),
        c.DatabaseHandler.All s = ((ls, none), s₁) →
        c.CIDRPool (ls.map Lease.OverlaySubnet) = (sub, none) →
        c.ParseCIDR sub = (vip, some e) →
        ((tryAcquireLease c ip s).1).2 = some ("parse subnet: " ++ e))
    ∧ (∀ (σ : Type) (c : LeaseController σ) (ip : String) (s : σ)
          (ls : List Lease) (s₁ : σ) (sub vip hw : String) (e : Err),
        c.DatabaseHandler.All s = ((ls, none), s₁) →
        c.CIDRPool (ls.map Lease.OverlaySubnet) = (sub, none) →
        c.ParseCIDR sub = (vip, none) →
        c.HardwareAddressGenerator vip = (hw, some e) →
        ((tryAcquireLease c ip s).1).2 = some ("generate hardware address: " ++ e))
    ∧ (∀ (σ : Type) (c : LeaseController σ) (ip : String) (s : σ)
          (ls : List Lease) (s₁ : σ) (sub vip hw : String) (e : Err) (s₂ : σ),
        c.DatabaseHandler.All s = ((ls, none), s₁) →
        c.CIDRPool (ls.map Lease.OverlaySubnet) = (sub, none) →
        c.ParseCIDR sub = (vip, none) →
        c.HardwareAddressGenerator vip = (hw, none) →
        c.DatabaseHandler.AddEntry ⟨ip, sub, hw⟩ s₁ = (some e, s₂) →
        ((tryAcquireLease c ip s).1).2 = some ("adding lease entry: " ++ e))
    ∧ (∀ (σ : Type) (c : LeaseController σ) (ip : String) (s : σ)
          (e₀ : Err) (s₁ : σ),
        c.AcquireSubnetLeaseAttempts ≤ 0 →
        c.DatabaseHandler.LeaseForUnderlayIP ip s = ((none, some e₀), s₁) →
        (AcquireSubnetLease c ip s).1 = (none, some e₀)) := by
  refine ⟨?_, ?_, ?_, ?_, ?_, ?_, ?_, ?_, ?_⟩
  · intro σ c s e s₁ h
    simp [ReleaseSubnetLease, h]
  · intro σ c s ls e s₁ h
    simp [RoutableLeases, h]
  · intro σ c s n e s₁ hmax h
    unfold TryMigrations
    rw [hmax]
    conv_lhs => rw [show ((1 : Int)).toNat = 1 from rfl, tryMigrationsLoop]
    simp [h, tryMigrationsLoop, goErrString]
  · intro σ c ip s ls e s₁ h
    simp [tryAcquireLease, h]
  · intro σ c ip s ls s₁ sub e h hp
    simp [tryAcquireLease, h, hp]
  · intro σ c ip s ls s₁ sub vip e h hp hc
    simp [tryAcquireLease, h, hp, hc]
  · intro σ c ip s ls s₁ sub vip hw e h hp hc hg
    simp [tryAcquireLease, h, hp, hc, hg]
  · intro σ c ip s ls s₁ sub vip hw e s₂ h hp hc hg ha
    simp [tryAcquireLease, h, hp, hc, hg, ha]
  · intro σ c ip s e₀ s₁ hle h
    have htn : c.AcquireSubnetLeaseAttempts.toNat = 0 := by omega
    simp [AcquireSubnetLease, h, htn, acquireLoop]

/-- Witness for the amended C6: each propagation clause exercised at a
concrete failing collaborator. -/
theorem C6_amended_witness :
    (ReleaseSubnetLease allFailController ()).1 = some "releasing lease: delete down"
      ∧ ((RoutableLeases allFailController ()).1).2 = some "getting all leases: list down"
      ∧ (TryMigrations allFailController ()).1 = some "creating table: migrate down"
      ∧ ((tryAcquireLease allFailController "10.0.0.5" ()).1).2
          = some "getting all subnets: list down"
      ∧ ((tryAcquireLease poolFailController "10.0.0.5" ()).1).2
          = some "get available subnet: no subnets available"
      ∧ ((tryAcquireLease parseFailController "10.0.0.5" ()).1).2
          = some "parse subnet: invalid CIDR address: bogus"
      ∧ ((tryAcquireLease hwFailController "10.0.0.5" ()).1).2
          = some "generate hardware address: address out of range"
      ∧ ((tryAcquireLease insertFailController "10.0.0.5" ()).1).2
          = some "adding lease entry: UNIQUE constraint failed"
      ∧ (AcquireSubnetLease zeroAttemptController "10.0.0.5" ()).1
          = (none, some "lookup failed") := by
  obtain ⟨h1, h2, h3, h4, h5, h6, h7, h8, h9⟩ := C6_amended_error_propagation
  refine ⟨?_, ?_, ?_, ?_, ?_, ?_, ?_, ?_, ?_⟩
  · rw [h1 Unit allFailController () "delete down" () rfl]
    decide
  · rw [h2 Unit allFailController () [] "list down" () rfl]
    decide
  · rw [h3 Unit allFailController () 0 "migrate down" () rfl rfl]
    decide
  · rw [h4 Unit allFailController "10.0.0.5" () [] "list down" () rfl]
    decide
  · rw [h5 Unit poolFailController "10.0.0.5" () [] () "" "no subnets available" rfl rfl]
    decide
  · rw [h6 Unit parseFailController "10.0.0.5" () [] () "bogus" ""
        "invalid CIDR address: bogus" rfl rfl rfl]
    decide
  · rw [h7 Unit hwFailController "10.0.0.5" () [] () "10.255.1.0/24" "10.255.1.0" ""
        "address out of range" rfl rfl rfl rfl]
    decide
  · rw [h8 Unit insertFailController "10.0.0.5" () [] () "10.255.1.0/24" "10.255.1.0"
        "ee:ee:0a:ff:01:00" "UNIQUE constraint failed" () rfl rfl rfl rfl rfl]
    decide
  · rw [h9 Unit zeroAttemptController "10.0.0.5" () "lookup failed" ()
        (by decide) rfl]

/-- Claim C7: for a freshly created pair (whose kernel-assigned initial
addresses are all IPv6) provisioned in the spec's order — IPv6
suppression then address assignment — the host endpoint ends up with
exactly one address, 169.254.0.1/32 with peer containerIP/32 at
link-local scope, and the container endpoint with exactly one address,
containerIP/32 with peer 169.254.0.1/32 at link-local scope. -/
theorem C7_point_to_point (links : List String) (contName hostName : String)
    (mtu : Nat) (autoH autoC : List Veth.VAddr) (cIP : String) (p : Veth.Pair)
    (hH : ∀ a ∈ autoH, a.family = Veth.AddrFamily.v6)
    (hC : ∀ a ∈ autoC, a.family = Veth.AddrFamily.v6)
    (hcreate : (Veth.CreatePair contName hostName mtu autoH autoC links).1
        = Except.ok p) :
    (Veth.AssignIP (Veth.DisableIPv6 p) cIP).host.addrs
        = [⟨"169.254.0.1/32", cIP ++ "/32", Veth.AddrScope.link, Veth.AddrFamily.v4⟩]
      ∧ (Veth.AssignIP (Veth.DisableIPv6 p) cIP).container.addrs
        = [⟨cIP ++ "/32", "169.254.0.1/32", Veth.AddrScope.link, Veth.AddrFamily.v4⟩] := by
  by_cases hmem : contName ∈ links
  · simp [Veth.CreatePair, hmem] at hcreate
  · simp [Veth.CreatePair, hmem] at hcreate
    refine ⟨?_, ?_⟩
    · simp [← hcreate, Veth.AssignIP, Veth.DisableIPv6]
      exact hH
    · simp [← hcreate, Veth.AssignIP, Veth.DisableIPv6]
      exact hC

/-- Witness for C7: creating eth0 beside an unrelated lo link with one
auto IPv6 address per side, disabling IPv6 and assigning 10.255.4.5
yields exactly the two point-to-point addresses. -/
theorem C7_witness :
    (Veth.AssignIP
        (Veth.DisableIPv6
          ⟨⟨"veth4x", [⟨"fe80::aaaa/64", "", Veth.AddrScope.link, Veth.AddrFamily.v6⟩]⟩,
           ⟨"eth0", [⟨"fe80::bbbb/64", "", Veth.AddrScope.link, Veth.AddrFamily.v6⟩]⟩⟩)
        "10.255.4.5").host.addrs
      = [⟨"169.254.0.1/32", "10.255.4.5/32", Veth.AddrScope.link, Veth.AddrFamily.v4⟩]
    ∧ (Veth.AssignIP
        (Veth.DisableIPv6
          ⟨⟨"veth4x", [⟨"fe80::aaaa/64", "", Veth.AddrScope.link, Veth.AddrFamily.v6⟩]⟩,
           ⟨"eth0", [⟨"fe80::bbbb/64", "", Veth.AddrScope.link, Veth.AddrFamily.v6⟩]⟩⟩)
        "10.255.4.5").container.addrs
      = [⟨"10.255.4.5/32", "169.254.0.1/32", Veth.AddrScope.link, Veth.AddrFamily.v4⟩] := by
  have h := C7_point_to_point ["lo"] "eth0" "veth4x" 1500
    [⟨"fe80::aaaa/64", "", Veth.AddrScope.link, Veth.AddrFamily.v6⟩]
    [⟨"fe80::bbbb/64", "", Veth.AddrScope.link, Veth.AddrFamily.v6⟩]
    "10.255.4.5"
    ⟨⟨"veth4x", [⟨"fe80::aaaa/64", "", Veth.AddrScope.link, Veth.AddrFamily.v6⟩]⟩,
     ⟨"eth0", [⟨"fe80::bbbb/64", "", Veth.AddrScope.link, Veth.AddrFamily.v6⟩]⟩⟩
    (by decide) (by decide) rfl
  exact ⟨by rw [h.1]; decide, by rw [h.2]; decide⟩

/-- Claim C8: requesting a container-side interface name that already
exists in the container namespace makes CreatePair fail with an error
naming that interface and stating it already exists, and the namespace
link set is unchanged — no device is created. -/
theorem C8_name_collision (links : List String) (contName hostName : String)
    (mtu : Nat) (autoH autoC : List Veth.VAddr) (hmem : contName ∈ links) :
    Veth.CreatePair contName hostName mtu autoH autoC links
      = (Except.error ("container veth name provided (" ++ contName ++ ") already exists"),
         links) := by
  simp [Veth.CreatePair, hmem]

/-- Witness for C8: requesting eth0 when eth0 is already present fails
with the naming error and leaves the link set as it was. -/
theorem C8_witness :
    Veth.CreatePair "eth0" "veth4x" 1500 [] [] ["eth0", "lo"]
      = (Except.error "container veth name provided (eth0) already exists",
         ["eth0", "lo"]) := by
  rw [C8_name_collision ["eth0", "lo"] "eth0" "veth4x" 1500 [] [] (by decide)]
  rfl

/-- Claim C9: after DisableIPv6 the IPv6-filtered address list of both
endpoints is empty whatever IPv6 addresses were present before; when no
IPv6 address is present it is a no-op leaving the pair unchanged, and
the operation is idempotent. -/
theorem C9_disable_ipv6 : ∀ p : Veth.Pair,
    (Veth.addrList (Veth.DisableIPv6 p).host Veth.AddrFamily.v6 = []
      ∧ Veth.addrList (Veth.DisableIPv6 p).container Veth.AddrFamily.v6 = [])
    ∧ (Veth.addrList p.host Veth.AddrFamily.v6 = [] →
        Veth.addrList p.container Veth.AddrFamily.v6 = [] →
        Veth.DisableIPv6 p = p)
    ∧ Veth.DisableIPv6 (Veth.DisableIPv6 p) = Veth.DisableIPv6 p := by
  have hidem : ∀ l : List Veth.VAddr,
      (l.filter (fun a => decide (a.family ≠ Veth.AddrFamily.v6))).filter
          (fun a => decide (a.family ≠ Veth.AddrFamily.v6))
        = l.filter (fun a => decide (a.family ≠ Veth.AddrFamily.v6)) := by
    intro l
    apply List.filter_eq_self.mpr
    intro a ha
    exact (List.mem_filter.mp ha).2
  intro p
  obtain ⟨⟨hn, ha⟩, cn, ca⟩ := p
  refine ⟨⟨?_, ?_⟩, ?_, ?_⟩
  · apply List.filter_eq_nil_iff.mpr
    intro a haf
    have h1 := (List.mem_filter.mp haf).2
    simp at h1 ⊢
    exact h1
  · apply List.filter_eq_nil_iff.mpr
    intro a haf
    have h1 := (List.mem_filter.mp haf).2
    simp at h1 ⊢
    exact h1
  · intro h1 h2
    have hhost : ha.filter (fun a => decide (a.family ≠ Veth.AddrFamily.v6)) = ha := by
      apply List.filter_eq_self.mpr
      intro a haa
      have h3 := List.filter_eq_nil_iff.mp h1 a haa
      simp at h3 ⊢
      exact h3
    have hcont : ca.filter (fun a => decide (a.family ≠ Veth.AddrFamily.v6)) = ca := by
      apply List.filter_eq_self.mpr
      intro a haa
      have h3 := List.filter_eq_nil_iff.mp h2 a haa
      simp at h3 ⊢
      exact h3
    simp only [Veth.DisableIPv6]
    rw [hhost, hcont]
  · simp [Veth.DisableIPv6, hidem]

/-- Witness for C9: a pair holding one IPv4 address and no IPv6
addresses is untouched by DisableIPv6, its IPv6 listing stays empty,
and repeating the operation changes nothing. -/
theorem C9_witness :
    (Veth.addrList
        (Veth.DisableIPv6
          ⟨⟨"veth4x", [⟨"1.2.3.4/32", "5.6.7.8/32", Veth.AddrScope.univ, Veth.AddrFamily.v4⟩]⟩,
           ⟨"eth0", []⟩⟩).host Veth.AddrFamily.v6 = []
      ∧ Veth.addrList
          (Veth.DisableIPv6
            ⟨⟨"veth4x", [⟨"1.2.3.4/32", "5.6.7.8/32", Veth.AddrScope.univ, Veth.AddrFamily.v4⟩]⟩,
             ⟨"eth0", []⟩⟩).container Veth.AddrFamily.v6 = [])
    ∧ Veth.DisableIPv6
        ⟨⟨"veth4x", [⟨"1.2.3.4/32", "5.6.7.8/32", Veth.AddrScope.univ, Veth.AddrFamily.v4⟩]⟩,
         ⟨"eth0", []⟩⟩
      = ⟨⟨"veth4x", [⟨"1.2.3.4/32", "5.6.7.8/32", Veth.AddrScope.univ, Veth.AddrFamily.v4⟩]⟩,
         ⟨"eth0", []⟩⟩
    ∧ Veth.DisableIPv6 (Veth.DisableIPv6
        ⟨⟨"veth4x", [⟨"1.2.3.4/32", "5.6.7.8/32", Veth.AddrScope.univ, Veth.AddrFamily.v4⟩]⟩,
         ⟨"eth0", []⟩⟩)
      = Veth.DisableIPv6
        ⟨⟨"veth4x", [⟨"1.2.3.4/32", "5.6.7.8/32", Veth.AddrScope.univ, Veth.AddrFamily.v4⟩]⟩,
         ⟨"eth0", []⟩⟩ := by
  have h := C9_disable_ipv6
    ⟨⟨"veth4x", [⟨"1.2.3.4/32", "5.6.7.8/32", Veth.AddrScope.univ, Veth.AddrFamily.v4⟩]⟩,
     ⟨"eth0", []⟩⟩
  exact ⟨h.1, h.2.1 (by decide) (by decide), h.2.2⟩
